import Mathlib

/-!
Verification development for the Cloth_shop storefront backend.

The definitions below are a shallow embedding of the Express route
handlers and middleware of the repository:

- `createOrder`, `listOrders`, `getOrder`, `updateOrderStatus`
  embed server/routes/orderRoutes.js;
- `signup`, `login`, `updateProfile` embed server/routes/authRoutes.js;
- `authenticate` embeds server/middleware/auth.js;
- the Cart aggregate operations are modelled from the spec, because
  server/routes/cartRoutes.js and server/models/Cart.js are not among
  the available sources.

MongoDB documents become Lean structures; a collection becomes a
`List`; `findOne` / `findById` become `List.find?`; each persistence
write that may fail is driven by its own boolean oracle passed to the
handler (`orderSaveOk` for `order.save()`, `cartSaveOk` for
`cart.save()`).  Request bodies are structures whose optional fields
are `Option`s; the JavaScript falsiness test `!x` on a string field is
`isBlank` (true for a missing field and for the empty string), and on
an object-valued field it is `Option.isNone` — a present object is
truthy whatever its contents.
-/

set_option autoImplicit false

namespace Shop

/-- Catalog product as stored by server/models/Product.js (the fields
the checkout snapshot reads: id, name, image, new_price). -/
structure Product where
  id : Nat
  name : String
  image : String
  new_price : Nat
  deriving DecidableEq, Repr

/-- One populated cart entry: the product document joined in by
`populate` together with its quantity. -/
structure CartItem where
  product : Product
  quantity : Nat
  deriving DecidableEq, Repr

/-- The per-user cart document: owner id and its item list. -/
structure Cart where
  user : Nat
  items : List CartItem
  deriving DecidableEq, Repr

/-- A shipping address object as the client's checkout form sends it
(the five fields collected in CartItems.jsx: street, city, state,
zipCode, country). -/
structure Address where
  street : String
  city : String
  state : String
  zipCode : String
  country : String
  deriving DecidableEq, Repr

/-- Completeness of a shipping address, the condition named by the
spec's MissingAddress rule ("absent or incomplete"): every field
non-empty, matching the client-side validation in CartItems.jsx.  The
checkout route itself never tests it — `!shippingAddress` only tests
presence of the object. -/
def Address.isComplete (a : Address) : Bool :=
  !(a.street == "") && !(a.city == "") && !(a.state == "") &&
    !(a.zipCode == "") && !(a.country == "")

/-- A frozen line-item snapshot stored inside an order, as built by the
`cart.items.map` in the checkout handler. -/
structure OrderItem where
  product : Nat
  name : String
  image : String
  price : Nat
  quantity : Nat
  deriving DecidableEq, Repr

/-- An order document as constructed by `new Order({...})` in the
checkout handler. -/
structure Order where
  id : Nat
  user : Nat
  items : List OrderItem
  totalAmount : Nat
  shippingAddress : Address
  paymentMethod : String
  paymentStatus : String
  orderStatus : String
  deriving DecidableEq, Repr

/-- Body of POST /api/orders.  `shippingAddress` and `paymentMethod`
are the two fields the handler destructures; `totalAmount` is present
so that we can state that a client-supplied total is ignored — the
handler never reads it. -/
structure CheckoutReq where
  shippingAddress : Option Address
  paymentMethod : Option String
  totalAmount : Option Nat
  deriving DecidableEq, Repr

/-- State touched by the checkout handler: the requesting user's cart
document (if one exists) and the order collection. -/
structure CheckoutState where
  cart : Option Cart
  orders : List Order
  deriving DecidableEq, Repr

/-- Outcome of POST /api/orders: 201 with the created order, a 400
from one of the two explicit validation checks, or a 400 produced by
the catch block when `order.save()` or `cart.save()` rejects. -/
inductive CheckoutResult where
  | created (order : Order)
  | clientError (message : String)
  | persistenceError
  deriving DecidableEq, Repr

/-- Snapshot builder: the body of the `cart.items.map` callback in the
checkout handler. -/
def snapshotItem (ci : CartItem) : OrderItem :=
  { product := ci.product.id
    name := ci.product.name
    image := ci.product.image
    price := ci.product.new_price
    quantity := ci.quantity }

/-- Total accumulated by the checkout handler: the sum over cart items
of `product.new_price * cartItem.quantity`. -/
def cartTotal (items : List CartItem) : Nat :=
  (items.map (fun ci => ci.product.new_price * ci.quantity)).sum

/-- POST /api/orders (orderRoutes.js lines 43-94).  Checks order: the
missing-address test first (presence of the object only), then the
empty-cart test; then it builds the snapshots and the total, saves the
order (`orderSaveOk` is the persistence oracle for `order.save()`)
and, only after a successful order save, clears the cart and saves it
(`cartSaveOk` is the oracle for `cart.save()`).  If the cart save
rejects, the catch block answers 400 while the order is already
persisted and the stored cart keeps its entries. -/
def createOrder (userId : Nat) (req : CheckoutReq) (st : CheckoutState)
    (orderSaveOk : Bool) (cartSaveOk : Bool) :
    CheckoutResult × CheckoutState :=
  match req.shippingAddress with
  | none => (.clientError "Shipping address is required", st)
  | some addr =>
    match st.cart with
    | none => (.clientError "Cart is empty", st)
    | some cart =>
      if cart.items.length = 0 then
        (.clientError "Cart is empty", st)
      else
        let order : Order :=
          { id := st.orders.length
            user := userId
            items := cart.items.map snapshotItem
            totalAmount := cartTotal cart.items
            shippingAddress := addr
            paymentMethod := req.paymentMethod.getD "cash_on_delivery"
            paymentStatus := "pending"
            orderStatus := "pending" }
        if orderSaveOk then
          if cartSaveOk then
            (.created order,
             { cart := some { user := cart.user, items := [] }
               orders := st.orders ++ [order] })
          else
            (.persistenceError,
             { cart := some cart, orders := st.orders ++ [order] })
        else
          (.persistenceError, st)

/-- A user document as far as the handlers here read and write it:
identity, credentials, role and the three profile fields. -/
structure User where
  id : Nat
  name : String
  email : String
  passwordHash : String
  role : String
  phone : String
  address : String
  deriving DecidableEq, Repr

/-- JavaScript falsiness of an optional string field: `!x` is true when
the field is absent or the empty string. -/
def isBlank : Option String → Bool
  | none => true
  | some s => s == ""

/-- Whitespace removal from both ends of a character list, the `trim`
half of the email normalization. -/
def trimChars (l : List Char) : List Char :=
  ((l.dropWhile Char.isWhitespace).reverse.dropWhile
    Char.isWhitespace).reverse

/-- Email normalization applied by signup and login:
`email.toLowerCase().trim()` — implemented on the character list so
that it evaluates (lower-case every character, then drop surrounding
whitespace). -/
def normalizeEmail (e : String) : String :=
  ⟨trimChars (e.data.map Char.toLower)⟩

/-- `User.findOne({ email })` over the users collection. -/
def findByEmail (users : List User) (e : String) : Option User :=
  users.find? (fun u => u.email == e)

/-- `User.findById(id)` over the users collection. -/
def findById (users : List User) (id : Nat) : Option User :=
  users.find? (fun u => u.id == id)

/-- A bearer token as the middleware observes it: the subject user id
recovered by `jwt.verify`, and whether `jwt.verify` accepts it
(signature valid and not expired) — the cryptographic check is
abstracted into this boolean. -/
structure Token where
  userId : Nat
  sigValid : Bool
  deriving DecidableEq, Repr

/-- Outcome of the authenticate middleware: a 401 with one of its three
messages, or success with the principal attached to the request. -/
inductive AuthOutcome where
  | unauthenticated (message : String)
  | ok (principal : User)
  deriving DecidableEq, Repr

/-- HTTP status attached to each middleware outcome (success itself
carries no status; the downstream handler chooses one — 200 here as a
placeholder distinct from every error status). -/
def AuthOutcome.status : AuthOutcome → Nat
  | .unauthenticated _ => 401
  | .ok _ => 200

/-- The authenticate middleware (server/middleware/auth.js): token
present, `jwt.verify` succeeds, subject id resolves to a live user;
each failure responds 401, success attaches the freshly loaded user. -/
def authenticate (users : List User) (token : Option Token) : AuthOutcome :=
  match token with
  | none => .unauthenticated "Authentication required"
  | some t =>
    if t.sigValid then
      match findById users t.userId with
      | none => .unauthenticated "User not found"
      | some u => .ok u
    else
      .unauthenticated "Invalid or expired token"

/-- Body of POST /api/auth/login. -/
structure LoginReq where
  email : Option String
  password : Option String
  deriving DecidableEq, Repr

/-- Outcome of POST /api/auth/login: an error status with its message,
or success carrying the id the token is signed for and the user. -/
inductive LoginResult where
  | error (status : Nat) (message : String)
  | success (tokenSubject : Nat) (user : User)
  deriving DecidableEq, Repr

/-- POST /api/auth/login (authRoutes.js lines 144-199).  `checkPw` is
the bcrypt `comparePassword` oracle of the User model. -/
def login (checkPw : User → String → Bool) (users : List User)
    (req : LoginReq) : LoginResult :=
  if isBlank req.email || isBlank req.password then
    .error 400 "Please provide email and password"
  else
    match findByEmail users (normalizeEmail (req.email.getD "")) with
    | none => .error 401 "Invalid credentials"
    | some u =>
      if checkPw u (req.password.getD "") then
        .success u.id u
      else
        .error 401 "Invalid credentials"

/-- Body of POST /api/auth/signup. -/
structure SignupReq where
  name : Option String
  email : Option String
  password : Option String
  deriving DecidableEq, Repr

/-- Outcome of POST /api/auth/signup. -/
inductive SignupResult where
  | error (status : Nat) (message : String)
  | created (user : User)
  deriving DecidableEq, Repr

/-- The user document `new User({...})` builds at signup: normalized
email, hashed password, role defaulted to user. -/
def freshUser (hash : String → String) (nextId : Nat) (req : SignupReq) :
    User :=
  { id := nextId
    name := req.name.getD ""
    email := normalizeEmail (req.email.getD "")
    passwordHash := hash (req.password.getD "")
    role := "user"
    phone := ""
    address := "" }

/-- POST /api/auth/signup (authRoutes.js lines 75-132): require all
three fields, normalize the email, 400-conflict when a user with the
normalized email exists, otherwise persist the fresh user. -/
def signup (hash : String → String) (nextId : Nat) (users : List User)
    (req : SignupReq) : SignupResult × List User :=
  if isBlank req.name || isBlank req.email || isBlank req.password then
    (.error 400 "Please provide all required fields", users)
  else
    match findByEmail users (normalizeEmail (req.email.getD "")) with
    | some _ => (.error 400 "User already exists with this email", users)
    | none =>
      (.created (freshUser hash nextId req),
       users ++ [freshUser hash nextId req])

/-- Field names PUT /api/auth/profile accepts (authRoutes.js line 226). -/
def allowedUpdates : List String :=
  ["name", "phone", "address"]

/-- Assignment `req.user[update] = req.body[update]` for one body key;
only reached for keys that passed the allow-list check, so the final
branch is dead in `updateProfile`. -/
def applyUpdate (u : User) (kv : String × String) : User :=
  if kv.1 = "name" then { u with name := kv.2 }
  else if kv.1 = "phone" then { u with phone := kv.2 }
  else if kv.1 = "address" then { u with address := kv.2 }
  else u

/-- Outcome of PUT /api/auth/profile. -/
inductive ProfileResult where
  | error (status : Nat) (message : String)
  | ok (user : User)
  deriving DecidableEq, Repr

/-- PUT /api/auth/profile (authRoutes.js lines 224-241): reject the
whole request when any body key is outside the allow-list, otherwise
apply every key in body order and save.  The body is the key/value
list of the JSON object. -/
def updateProfile (u : User) (body : List (String × String)) :
    ProfileResult × User :=
  if body.all (fun kv => allowedUpdates.contains kv.1) then
    let u2 := body.foldl applyUpdate u
    (.ok u2, u2)
  else
    (.error 400 "Invalid updates", u)

/-- Body of PUT /api/orders/:id/status. -/
structure StatusReq where
  orderStatus : Option String
  paymentStatus : Option String
  deriving DecidableEq, Repr

/-- Outcome of PUT /api/orders/:id/status. -/
inductive StatusResult where
  | notFound
  | forbidden
  | ok (order : Order)
  deriving DecidableEq, Repr

/-- HTTP status of each status-update outcome. -/
def StatusResult.status : StatusResult → Nat
  | .notFound => 404
  | .forbidden => 403
  | .ok _ => 200

/-- `Order.findById` over the order collection. -/
def findOrder (orders : List Order) (oid : Nat) : Option Order :=
  orders.find? (fun o => o.id == oid)

/-- Write-back of a saved order into the collection. -/
def saveOrder (orders : List Order) (o2 : Order) : List Order :=
  orders.map (fun o => if o.id == o2.id then o2 else o)

/-- PUT /api/orders/:id/status (orderRoutes.js lines 97-124): 404 when
the id resolves to no order; 403 when the principal is neither admin
nor the order's owner; otherwise overwrite whichever of the two enum
fields the body supplies truthily and save. -/
def updateOrderStatus (principal : User) (orders : List Order)
    (oid : Nat) (req : StatusReq) : StatusResult × List Order :=
  match findOrder orders oid with
  | none => (.notFound, orders)
  | some o =>
    if principal.role ≠ "admin" ∧ o.user ≠ principal.id then
      (.forbidden, orders)
    else
      let o2 :=
        { o with
          orderStatus :=
            if isBlank req.orderStatus then o.orderStatus
            else req.orderStatus.getD o.orderStatus
          paymentStatus :=
            if isBlank req.paymentStatus then o.paymentStatus
            else req.paymentStatus.getD o.paymentStatus }
      (.ok o2, saveOrder orders o2)

/-- GET /api/orders (orderRoutes.js lines 12-22):
`Order.find({ user: req.user._id })`. -/
def listOrders (principal : User) (orders : List Order) : List Order :=
  orders.filter (fun o => o.user == principal.id)

/-- Outcome of GET /api/orders/:id. -/
inductive GetOrderResult where
  | notFound
  | ok (order : Order)
  deriving DecidableEq, Repr

/-- GET /api/orders/:id (orderRoutes.js lines 25-40):
`Order.findOne({ _id: req.params.id, user: req.user._id })`, 404 when
nothing matches — the filter constrains the owner even for admins. -/
def getOrder (principal : User) (orders : List Order) (oid : Nat) :
    GetOrderResult :=
  match orders.find? (fun o => o.id == oid && o.user == principal.id) with
  | none => .notFound
  | some o => .ok o

/-- Modelled from the spec: the Cart aggregate state of §3/§4.4 —
server/models/Cart.js and server/routes/cartRoutes.js are not among
the available sources.  A cart is a mapping from product reference to
quantity, kept as an association list. -/
structure SpecCart where
  entries : List (Nat × Int)
  deriving DecidableEq, Repr

/-- Quantity stored for a product reference, if an entry exists. -/
def SpecCart.lookup (c : SpecCart) (p : Nat) : Option Int :=
  (c.entries.find? (fun e => e.1 == p)).map (fun e => e.2)

/-- Modelled from the spec: `addItem(user, productRef, qty)` of §4.4 —
requires qty ≥ 1 (rejected otherwise), increments an existing entry by
qty, else inserts a new entry with quantity qty. -/
def addItem (c : SpecCart) (p : Nat) (qty : Int) :
    Except String SpecCart :=
  if qty < 1 then
    .error "Quantity must be at least 1"
  else if c.entries.any (fun e => e.1 == p) then
    .ok { entries :=
            c.entries.map (fun e => if e.1 == p then (e.1, e.2 + qty) else e) }
  else
    .ok { entries := c.entries ++ [(p, qty)] }

/-- Modelled from the spec: `updateItem(user, productRef, qty)` of §4.4
— qty ≤ 0 removes the entry entirely; qty ≥ 1 sets an existing entry's
quantity to qty. -/
def updateItem (c : SpecCart) (p : Nat) (qty : Int) : SpecCart :=
  if qty ≤ 0 then
    { entries := c.entries.filter (fun e => !(e.1 == p)) }
  else
    { entries := c.entries.map (fun e => if e.1 == p then (e.1, qty) else e) }

/-- Modelled from the spec: `removeItem(user, productRef)` of §4.4 —
deletes the entry if present, no-op if absent. -/
def removeItem (c : SpecCart) (p : Nat) : SpecCart :=
  { entries := c.entries.filter (fun e => !(e.1 == p)) }

/-- Modelled from the spec: `clear(user)` of §4.4 — empties all
entries. -/
def clearCart (_c : SpecCart) : SpecCart :=
  { entries := [] }

/-- Cart invariant of §3: every stored entry has quantity ≥ 1. -/
def cartInv (c : SpecCart) : Bool :=
  c.entries.all (fun e => 1 ≤ e.2)

/-! Concrete values used to instantiate the theorems: the cart
{P1: qty 2 @ price 10, P2: qty 1 @ price 5} of the spec's example. -/

/-- Example product P1 at catalog price 10. -/
def exP1 : Product :=
  { id := 1, name := "P1", image := "img1", new_price := 10 }

/-- Example product P2 at catalog price 5. -/
def exP2 : Product :=
  { id := 2, name := "P2", image := "img2", new_price := 5 }

/-- Example cart of user 7: P1 with quantity 2, P2 with quantity 1. -/
def exCart : Cart :=
  { user := 7, items := [⟨exP1, 2⟩, ⟨exP2, 1⟩] }

/-- Example checkout state: the example cart, no prior orders. -/
def exSt : CheckoutState :=
  { cart := some exCart, orders := [] }

/-- Example complete shipping address. -/
def exAddr : Address :=
  { street := "221B Baker Street", city := "London", state := "LDN"
    zipCode := "NW1", country := "UK" }

/-- Example present-but-incomplete shipping address: only the street
is filled in, so the client-side completeness check fails on it. -/
def exIncompleteAddr : Address :=
  { street := "221B Baker Street", city := "", state := ""
    zipCode := "", country := "" }

/-- Example checkout request with a client-supplied totalAmount that
the server must ignore. -/
def exReq : CheckoutReq :=
  { shippingAddress := some exAddr
    paymentMethod := none
    totalAmount := some 999 }

/-- Example checkout request carrying the incomplete address. -/
def incompleteReq : CheckoutReq :=
  { shippingAddress := some exIncompleteAddr
    paymentMethod := none
    totalAmount := none }

/-- The order the checkout handler builds from `exCart`. -/
def exOrder : Order :=
  { id := 0
    user := 7
    items := [⟨1, "P1", "img1", 10, 2⟩, ⟨2, "P2", "img2", 5, 1⟩]
    totalAmount := 25
    shippingAddress := exAddr
    paymentMethod := "cash_on_delivery"
    paymentStatus := "pending"
    orderStatus := "pending" }

/-- The order the checkout handler builds from `exCart` when the
request carries the incomplete address. -/
def exIncompleteOrder : Order :=
  { id := 0
    user := 7
    items := [⟨1, "P1", "img1", 10, 2⟩, ⟨2, "P2", "img2", 5, 1⟩]
    totalAmount := 25
    shippingAddress := exIncompleteAddr
    paymentMethod := "cash_on_delivery"
    paymentStatus := "pending"
    orderStatus := "pending" }

/-- The state after the example checkout: cart emptied, the order
appended. -/
def exSt2 : CheckoutState :=
  { cart := some { user := 7, items := [] }, orders := [exOrder] }

/-- Example state whose cart exists but holds zero entries. -/
def emptyCartSt : CheckoutState :=
  { cart := some { user := 7, items := [] }, orders := [] }

/-- Example request with no shipping address at all. -/
def noAddrReq : CheckoutReq :=
  { shippingAddress := none, paymentMethod := none, totalAmount := none }

/-- Example request with a shipping address present. -/
def withAddrReq : CheckoutReq :=
  { shippingAddress := some exAddr, paymentMethod := none
    totalAmount := none }

/-- C1: a successful checkout snapshots exactly one line item per cart
entry, its totalAmount is the sum over the cart of current unit price
times quantity, and the handler's output does not depend on any
client-supplied totalAmount. -/
theorem createOrder_snapshot_and_total (userId : Nat) (req : CheckoutReq)
    (st : CheckoutState) (saveOk cartSaveOk : Bool) (order : Order)
    (st2 : CheckoutState)
    (h : createOrder userId req st saveOk cartSaveOk
      = (.created order, st2)) :
    (∃ cart, st.cart = some cart ∧
      order.items = cart.items.map snapshotItem ∧
      order.items.length = cart.items.length ∧
      order.totalAmount = cartTotal cart.items) ∧
    (∀ t, createOrder userId { req with totalAmount := t } st saveOk
        cartSaveOk = (.created order, st2)) := by
  refine ⟨?_, fun t => h⟩
  unfold createOrder at h
  split at h
  · simp at h
  · split at h
    · simp at h
    · rename_i cart hcart
      split at h
      · simp at h
      · split at h
        · split at h
          · rw [Prod.mk.injEq] at h
            obtain ⟨h1, _⟩ := h
            rw [CheckoutResult.created.injEq] at h1
            refine ⟨cart, hcart, ?_, ?_, ?_⟩
            · rw [← h1]
            · rw [← h1]
              exact List.length_map _ _
            · rw [← h1]
          · simp at h
        · simp at h

/-- C1 witness: on the spec's example cart the checkout succeeds with
exactly 2 line items and totalAmount 25, independent of the ignored
client totalAmount. -/
theorem createOrder_snapshot_and_total_witness :
    exOrder.items.length = 2 ∧ exOrder.totalAmount = 25 ∧
    createOrder 7 { exReq with totalAmount := some 123 } exSt true true
      = (.created exOrder, exSt2) := by
  have h := createOrder_snapshot_and_total 7 exReq exSt true true exOrder
    exSt2 (by decide)
  exact ⟨by decide, by decide, h.2 (some 123)⟩

/-- C2 counterexample: with a successful order write followed by a
failing cart save on the example checkout, the persisted order sits
beside the untouched, still non-empty cart and the handler reports the
persistence failure — so the cart is not emptied after every
successful order write. -/
theorem checkout_cart_save_failure_counterexample :
    (createOrder 7 exReq exSt true false).2.orders = [exOrder] ∧
    (createOrder 7 exReq exSt true false).2.cart = some exCart ∧
    exCart.items ≠ [] ∧
    (createOrder 7 exReq exSt true false).1 = .persistenceError := by
  decide

/-- C2 (amended): the order write strictly precedes cart clearing —
when the order write fails the whole state is unchanged, no created
order is reported, and any request that passed validation aborts with
the persistence failure; when the order write and the cart save both
succeed, the order is appended and the cart document survives with its
entries removed; when the order write succeeds but the cart save
fails, the persisted order remains beside the untouched cart and the
checkout reports the persistence failure. -/
theorem checkout_order_write_precedes_cart_clear (userId : Nat)
    (req : CheckoutReq) (st : CheckoutState) (cartSaveOk : Bool) :
    ((createOrder userId req st false cartSaveOk).2 = st ∧
     (∀ o, (createOrder userId req st false cartSaveOk).1
        ≠ .created o) ∧
     (∀ addr cart, req.shippingAddress = some addr →
        st.cart = some cart → cart.items.length ≠ 0 →
        (createOrder userId req st false cartSaveOk).1
          = .persistenceError)) ∧
    (∀ order st2,
      createOrder userId req st true true = (.created order, st2) →
      st2.orders = st.orders ++ [order] ∧
      ∃ c, st.cart = some c ∧
        st2.cart = some { user := c.user, items := [] }) ∧
    (∀ addr cart, req.shippingAddress = some addr →
      st.cart = some cart → cart.items.length ≠ 0 →
      (createOrder userId req st true false).2.cart = some cart ∧
      (createOrder userId req st true false).1 = .persistenceError ∧
      ∃ order, (createOrder userId req st true false).2.orders
        = st.orders ++ [order]) := by
  refine ⟨⟨?_, ?_, ?_⟩, ?_, ?_⟩
  · unfold createOrder
    split
    · rfl
    · split
      · rfl
      · split
        · rfl
        · simp
  · intro o
    unfold createOrder
    split
    · simp
    · split
      · simp
      · split
        · simp
        · simp
  · intro addr cart haddr hcart hne
    unfold createOrder
    simp only [haddr, hcart]
    rw [if_neg hne]
    simp
  · intro order st2 h
    unfold createOrder at h
    split at h
    · simp at h
    · split at h
      · simp at h
      · rename_i cart hcart
        split at h
        · simp at h
        · simp only [if_true] at h
          rw [Prod.mk.injEq] at h
          obtain ⟨h1, h2⟩ := h
          rw [CheckoutResult.created.injEq] at h1
          constructor
          · rw [← h2, ← h1]
          · exact ⟨cart, hcart, by rw [← h2]⟩
  · intro addr cart haddr hcart hne
    unfold createOrder
    simp only [haddr, hcart]
    rw [if_neg hne]
    refine ⟨by simp, by simp, ?_⟩
    refine ⟨{ id := st.orders.length, user := userId
              items := cart.items.map snapshotItem
              totalAmount := cartTotal cart.items
              shippingAddress := addr
              paymentMethod := req.paymentMethod.getD "cash_on_delivery"
              paymentStatus := "pending"
              orderStatus := "pending" }, ?_⟩
    simp

/-- C2 witness: instantiation of the amended ordering theorem on the
example checkout state — failing order write changes nothing and
aborts with the persistence failure, the doubly successful run empties
the cart, and the failing cart save keeps the persisted order beside
the untouched cart. -/
theorem checkout_order_write_precedes_cart_clear_witness :
    (createOrder 7 exReq exSt false true).2 = exSt ∧
    (createOrder 7 exReq exSt false true).1 = .persistenceError ∧
    exSt2.orders = exSt.orders ++ [exOrder] ∧
    (∃ c, exSt.cart = some c ∧
      exSt2.cart = some { user := c.user, items := [] }) ∧
    (createOrder 7 exReq exSt true false).2.cart = some exCart ∧
    (createOrder 7 exReq exSt true false).1 = .persistenceError := by
  have h := checkout_order_write_precedes_cart_clear 7 exReq exSt true
  have hsucc := h.2.1 exOrder exSt2 (by decide)
  have hfail := h.2.2 exAddr exCart rfl rfl (by decide)
  exact ⟨h.1.1, h.1.2.2 exAddr exCart rfl rfl (by decide),
    hsucc.1, hsucc.2, hfail.1, hfail.2.1⟩

/-- C3 counterexample: first, on a request whose cart is empty and
whose shipping address is also absent, the handler aborts with the
missing-address message, not the empty-cart message — the address
check runs first, contradicting the claimed rule-2-before-rule-3
ordering; second, on a request whose shipping address is present but
incomplete (only the street filled in) over a non-empty cart, the
handler creates and stores the order instead of aborting with the
missing-address message — completeness is never checked. -/
theorem checkout_empty_cart_missing_address_counterexample :
    ((createOrder 7 noAddrReq emptyCartSt true true).1
       = .clientError "Shipping address is required" ∧
     (createOrder 7 noAddrReq emptyCartSt true true).1
       ≠ .clientError "Cart is empty") ∧
    (exIncompleteAddr.isComplete = false ∧
     (createOrder 7 incompleteReq exSt true true).1
       = .created exIncompleteOrder ∧
     (createOrder 7 incompleteReq exSt true true).1
       ≠ .clientError "Shipping address is required") := by
  decide

/-- C3 (amended): a checkout request with an absent shipping address
aborts with the missing-address error and creates no order; a request
whose shipping address is present — complete or not — never receives
the missing-address abort, the route checking only presence; a request
with a present address whose cart has zero entries aborts with the
empty-cart error and creates no order; the address check precedes the
cart check, so an absent address yields the missing-address abort even
when the cart is also empty. -/
theorem checkout_validation_aborts (userId : Nat) (req : CheckoutReq)
    (st : CheckoutState) (saveOk cartSaveOk : Bool) :
    (req.shippingAddress = none →
      createOrder userId req st saveOk cartSaveOk
        = (.clientError "Shipping address is required", st)) ∧
    (∀ addr, req.shippingAddress = some addr →
      (createOrder userId req st saveOk cartSaveOk).1
        ≠ .clientError "Shipping address is required") ∧
    (∀ addr c, req.shippingAddress = some addr → st.cart = some c →
      c.items = [] →
      createOrder userId req st saveOk cartSaveOk
        = (.clientError "Cart is empty", st)) := by
  refine ⟨?_, ?_, ?_⟩
  · intro hnone
    unfold createOrder
    rw [hnone]
  · intro addr haddr
    unfold createOrder
    simp only [haddr]
    split
    · simp
    · split
      · simp
      · split
        · split
          · simp
          · simp
        · simp
  · intro addr c haddr hc hitems
    unfold createOrder
    rw [haddr, hc]
    simp [hitems]

/-- C3 witness: the amended validation behavior on concrete states —
absent address aborts with the missing-address error even on the empty
cart, the present-but-incomplete address never triggers that abort,
and a present address over the empty cart aborts with the empty-cart
error. -/
theorem checkout_validation_aborts_witness :
    createOrder 7 noAddrReq emptyCartSt true true
      = (.clientError "Shipping address is required", emptyCartSt) ∧
    (createOrder 7 incompleteReq exSt true true).1
      ≠ .clientError "Shipping address is required" ∧
    createOrder 7 withAddrReq emptyCartSt true true
      = (.clientError "Cart is empty", emptyCartSt) := by
  refine ⟨?_, ?_, ?_⟩
  · exact (checkout_validation_aborts 7 noAddrReq emptyCartSt
      true true).1 rfl
  · exact (checkout_validation_aborts 7 incompleteReq exSt
      true true).2.1 exIncompleteAddr rfl
  · exact (checkout_validation_aborts 7 withAddrReq emptyCartSt
      true true).2.2 exAddr { user := 7, items := [] } rfl rfl rfl

/-! Concrete users, tokens and requests instantiating the
authentication theorems. -/

/-- Example registered user. -/
def exUser : User :=
  { id := 7, name := "Alice", email := "alice@example.com"
    passwordHash := "h-secret1", role := "user", phone := "", address := "" }

/-- Example admin user. -/
def exAdmin : User :=
  { id := 9, name := "Root", email := "admin@example.com"
    passwordHash := "h-admin", role := "admin", phone := "", address := "" }

/-- Example users collection. -/
def exUsers : List User :=
  [exUser, exAdmin]

/-- A cryptographically valid token whose subject user 42 is absent
from `exUsers` — a stale token for a deleted user. -/
def staleToken : Token :=
  { userId := 42, sigValid := true }

/-- A valid token for the live example user. -/
def liveToken : Token :=
  { userId := 7, sigValid := true }

/-- Example password oracle: a plaintext matches when its tagged form
equals the stored hash. -/
def exCheckPw (u : User) (p : String) : Bool :=
  u.passwordHash == "h-" ++ p

/-- C4: a signature-valid unexpired token whose subject no longer
exists fails with status 401; a missing token and an invalid or
expired signature also yield status 401; and on success the
middleware attaches exactly the user currently stored under the
token's subject id, carrying that record's current role. -/
theorem authenticate_collapses_to_unauthenticated (users : List User)
    (t : Token) :
    (authenticate users none).status = 401 ∧
    (t.sigValid = false → (authenticate users (some t)).status = 401) ∧
    (t.sigValid = true → findById users t.userId = none →
      authenticate users (some t) = .unauthenticated "User not found" ∧
      (authenticate users (some t)).status = 401) ∧
    (∀ u, t.sigValid = true → findById users t.userId = some u →
      authenticate users (some t) = .ok u) := by
  refine ⟨rfl, ?_, ?_, ?_⟩
  · intro hsig
    simp [authenticate, AuthOutcome.status, hsig]
  · intro hsig hmiss
    simp [authenticate, AuthOutcome.status, hsig, hmiss]
  · intro u hsig hfound
    simp [authenticate, hsig, hfound]

/-- C4 witness: the stale token for deleted user 42 is rejected with
401 even though its signature is valid, and the live token attaches
the stored principal. -/
theorem authenticate_collapses_to_unauthenticated_witness :
    (authenticate exUsers (some staleToken)
      = .unauthenticated "User not found" ∧
     (authenticate exUsers (some staleToken)).status = 401) ∧
    authenticate exUsers (some liveToken) = .ok exUser := by
  have hs := authenticate_collapses_to_unauthenticated exUsers staleToken
  have hl := authenticate_collapses_to_unauthenticated exUsers liveToken
  exact ⟨hs.2.2.1 rfl (by decide), hl.2.2.2 exUser rfl (by decide)⟩

/-- C5: a login with an email matching no user and a login with a
wrong password for an existing email produce literally the same
outcome — error status 401 with message Invalid credentials — for any
password oracle. -/
theorem login_failures_indistinguishable (checkPw : User → String → Bool)
    (users : List User) (e1 p1 e2 p2 : String) (u : User)
    (he1 : e1 ≠ "") (hp1 : p1 ≠ "") (he2 : e2 ≠ "") (hp2 : p2 ≠ "")
    (hnouser : findByEmail users (normalizeEmail e1) = none)
    (huser : findByEmail users (normalizeEmail e2) = some u)
    (hpw : checkPw u p2 = false) :
    login checkPw users { email := some e1, password := some p1 }
      = .error 401 "Invalid credentials" ∧
    login checkPw users { email := some e2, password := some p2 }
      = .error 401 "Invalid credentials" ∧
    login checkPw users { email := some e1, password := some p1 }
      = login checkPw users { email := some e2, password := some p2 } := by
  have h1 : login checkPw users { email := some e1, password := some p1 }
      = .error 401 "Invalid credentials" := by
    unfold login
    simp only [isBlank]
    rw [if_neg]
    · simp only [Option.getD_some]
      rw [hnouser]
    · simp [he1, hp1]
  have h2 : login checkPw users { email := some e2, password := some p2 }
      = .error 401 "Invalid credentials" := by
    unfold login
    simp only [isBlank]
    rw [if_neg]
    · simp only [Option.getD_some]
      rw [huser]
      simp [hpw]
    · simp [he2, hp2]
  exact ⟨h1, h2, h1.trans h2.symm⟩

/-- C5 witness: on the concrete store, an unknown email and a wrong
password for the registered email give the identical 401 response. -/
theorem login_failures_indistinguishable_witness :
    login exCheckPw exUsers
        { email := some "nobody@example.com", password := some "x" }
      = .error 401 "Invalid credentials" ∧
    login exCheckPw exUsers
        { email := some "alice@example.com", password := some "wrong" }
      = .error 401 "Invalid credentials" := by
  have h := login_failures_indistinguishable exCheckPw exUsers
    "nobody@example.com" "x" "alice@example.com" "wrong" exUser
    (by decide) (by decide) (by decide) (by decide)
    (by decide) (by decide) (by decide)
  exact ⟨h.1, h.2.1⟩

/-- C6: a successful registration stores the lower-cased trimmed email
and appends exactly that user; registration fails with the conflict
error and leaves the store unchanged whenever any stored user already
carries the normalized email; hence re-registering any
casing/whitespace variant of a successfully registered email fails
with the conflict error; and signup never removes a stored user, so at
most one registration per normalized email can ever succeed. -/
theorem signup_normalizes_and_conflicts (hash : String → String)
    (id1 id2 : Nat) (users users2 : List User) (r r2 : SignupReq)
    (e e2 : String) (u : User)
    (hre : r.email = some e) (hr2e : r2.email = some e2)
    (hvar : normalizeEmail e2 = normalizeEmail e)
    (hn2 : isBlank r2.name = false) (he2 : e2 ≠ "")
    (hp2 : isBlank r2.password = false)
    (hsucc : signup hash id1 users r = (.created u, users2)) :
    u.email = normalizeEmail e ∧
    users2 = users ++ [u] ∧
    (∀ users3, (∃ w ∈ users3, w.email = normalizeEmail e2) →
      signup hash id2 users3 r2
        = (.error 400 "User already exists with this email", users3)) ∧
    signup hash id2 users2 r2
      = (.error 400 "User already exists with this email", users2) ∧
    (∀ (id3 : Nat) (users3 : List User) (r3 : SignupReq) (w : User),
      w ∈ users3 → w ∈ (signup hash id3 users3 r3).2) := by
  have hmain : u.email = normalizeEmail e ∧ users2 = users ++ [u] := by
    unfold signup at hsucc
    split at hsucc
    · simp at hsucc
    · split at hsucc
      · simp at hsucc
      · rw [Prod.mk.injEq] at hsucc
        obtain ⟨hcu, hus⟩ := hsucc
        rw [SignupResult.created.injEq] at hcu
        constructor
        · rw [← hcu]
          show normalizeEmail (r.email.getD "") = normalizeEmail e
          rw [hre]
          rfl
        · rw [← hus, hcu]
  have hconf : ∀ users3, (∃ w ∈ users3, w.email = normalizeEmail e2) →
      signup hash id2 users3 r2
        = (.error 400 "User already exists with this email", users3) := by
    intro users3 ⟨w, hw, hwe⟩
    unfold signup
    rw [if_neg]
    · have hne : findByEmail users3 (normalizeEmail (r2.email.getD ""))
          ≠ none := by
        rw [hr2e]
        intro hnone
        unfold findByEmail at hnone
        rw [List.find?_eq_none] at hnone
        exact absurd (by simp [hwe]) (hnone w hw)
      cases hfind : findByEmail users3 (normalizeEmail (r2.email.getD ""))
        with
      | none => exact absurd hfind hne
      | some w2 => rfl
    · have hbe : isBlank r2.email = false := by
        rw [hr2e]
        simp [isBlank, he2]
      simp [hn2, hbe, hp2]
  have hmono : ∀ (id3 : Nat) (users3 : List User) (r3 : SignupReq)
      (w : User), w ∈ users3 → w ∈ (signup hash id3 users3 r3).2 := by
    intro id3 users3 r3 w hw
    unfold signup
    split
    · exact hw
    · split
      · exact hw
      · simp [hw]
  refine ⟨hmain.1, hmain.2, hconf, ?_, hmono⟩
  refine hconf users2 ⟨u, ?_, by rw [hmain.1, hvar]⟩
  rw [hmain.2]
  simp

/-- C6 witness: registering MDSAD6385@GMAIL.COM succeeds once; the
lower-cased variant then fails with the conflict error and leaves the
store unchanged. -/
theorem signup_normalizes_and_conflicts_witness :
    signup (fun p => "h-" ++ p) 1 []
        { name := some "Md", email := some " MDSAD6385@GMAIL.COM ",
          password := some "secret1" }
      = (.created
          { id := 1, name := "Md", email := "mdsad6385@gmail.com",
            passwordHash := "h-secret1", role := "user", phone := "",
            address := "" },
         [{ id := 1, name := "Md", email := "mdsad6385@gmail.com",
            passwordHash := "h-secret1", role := "user", phone := "",
            address := "" }]) ∧
    signup (fun p => "h-" ++ p) 2
        [{ id := 1, name := "Md", email := "mdsad6385@gmail.com",
           passwordHash := "h-secret1", role := "user", phone := "",
           address := "" }]
        { name := some "Md", email := some "mdsad6385@gmail.com",
          password := some "secret1" }
      = (.error 400 "User already exists with this email",
         [{ id := 1, name := "Md", email := "mdsad6385@gmail.com",
            passwordHash := "h-secret1", role := "user", phone := "",
            address := "" }]) := by
  have h := signup_normalizes_and_conflicts (fun p => "h-" ++ p) 1 2 []
    [{ id := 1, name := "Md", email := "mdsad6385@gmail.com",
       passwordHash := "h-secret1", role := "user", phone := "",
       address := "" }]
    { name := some "Md", email := some " MDSAD6385@GMAIL.COM ",
      password := some "secret1" }
    { name := some "Md", email := some "mdsad6385@gmail.com",
      password := some "secret1" }
    " MDSAD6385@GMAIL.COM " "mdsad6385@gmail.com"
    { id := 1, name := "Md", email := "mdsad6385@gmail.com",
      passwordHash := "h-secret1", role := "user", phone := "",
      address := "" }
    rfl rfl (by decide) rfl (by decide) rfl (by decide)
  exact ⟨by decide, h.2.2.2.1⟩

/-- Example order owned by user 7, stored under id 3. -/
def exStoredOrder : Order :=
  { id := 3, user := 7, items := [⟨1, "P1", "img1", 10, 2⟩]
    totalAmount := 20, shippingAddress := exAddr
    paymentMethod := "cash_on_delivery", paymentStatus := "pending"
    orderStatus := "pending" }

/-- Example intruder principal: authenticated, not admin, not the
owner of `exStoredOrder`. -/
def exIntruder : User :=
  { id := 8, name := "Mallory", email := "mallory@example.com"
    passwordHash := "h-m", role := "user", phone := "", address := "" }

/-- Example status-update request body. -/
def exStatusReq : StatusReq :=
  { orderStatus := some "shipped", paymentStatus := none }

/-- C7: when the target order exists, a principal who is neither admin
nor its owner gets the forbidden outcome — status 403, distinct from
401 — with the order collection unchanged, and the gate passes (the
handler reaches a 200 with the saved order) exactly when the principal
is admin or owns the order. -/
theorem updateOrderStatus_ownership_gate (principal : User)
    (orders : List Order) (oid : Nat) (req : StatusReq) (o : Order)
    (hfind : findOrder orders oid = some o) :
    (principal.role ≠ "admin" → o.user ≠ principal.id →
      updateOrderStatus principal orders oid req = (.forbidden, orders) ∧
      (updateOrderStatus principal orders oid req).1.status = 403 ∧
      (updateOrderStatus principal orders oid req).1.status ≠ 401) ∧
    ((principal.role = "admin" ∨ o.user = principal.id) →
      ∃ o2, (updateOrderStatus principal orders oid req).1 = .ok o2) := by
  constructor
  · intro hrole howner
    have hmain : updateOrderStatus principal orders oid req
        = (.forbidden, orders) := by
      unfold updateOrderStatus
      simp only [hfind]
      rw [if_pos ⟨hrole, howner⟩]
    refine ⟨hmain, ?_, ?_⟩
    · rw [hmain]
      rfl
    · rw [hmain]
      show (403 : Nat) ≠ 401
      decide
  · intro hpass
    unfold updateOrderStatus
    simp only [hfind]
    rw [if_neg]
    · exact ⟨_, rfl⟩
    · rintro ⟨hr, hu⟩
      rcases hpass with h | h
      · exact hr h
      · exact hu h

/-- C7 witness: the non-admin non-owner principal is rejected with 403
and the store is unchanged, while the owner passes the gate. -/
theorem updateOrderStatus_ownership_gate_witness :
    (updateOrderStatus exIntruder [exStoredOrder] 3 exStatusReq
      = (.forbidden, [exStoredOrder]) ∧
     (updateOrderStatus exIntruder [exStoredOrder] 3 exStatusReq).1.status
       = 403) ∧
    ∃ o2, (updateOrderStatus exUser [exStoredOrder] 3 exStatusReq).1
      = .ok o2 := by
  have hi := updateOrderStatus_ownership_gate exIntruder [exStoredOrder]
    3 exStatusReq exStoredOrder (by decide)
  have ho := updateOrderStatus_ownership_gate exUser [exStoredOrder]
    3 exStatusReq exStoredOrder (by decide)
  have hif := hi.1 (by decide) (by decide)
  exact ⟨⟨hif.1, hif.2.1⟩, ho.2 (Or.inr rfl)⟩

/-- Framing of a single profile assignment: whichever branch
`applyUpdate` takes, the email, role, id and password hash survive. -/
theorem applyUpdate_keeps_identity (u : User) (kv : String × String) :
    (applyUpdate u kv).email = u.email ∧
    (applyUpdate u kv).role = u.role ∧
    (applyUpdate u kv).id = u.id ∧
    (applyUpdate u kv).passwordHash = u.passwordHash := by
  unfold applyUpdate
  split
  · exact ⟨rfl, rfl, rfl, rfl⟩
  · split
    · exact ⟨rfl, rfl, rfl, rfl⟩
    · split
      · exact ⟨rfl, rfl, rfl, rfl⟩
      · exact ⟨rfl, rfl, rfl, rfl⟩

/-- Framing of the whole assignment loop of the profile handler. -/
theorem foldl_applyUpdate_keeps_identity (body : List (String × String))
    (u : User) :
    (body.foldl applyUpdate u).email = u.email ∧
    (body.foldl applyUpdate u).role = u.role ∧
    (body.foldl applyUpdate u).id = u.id ∧
    (body.foldl applyUpdate u).passwordHash = u.passwordHash := by
  induction body generalizing u with
  | nil => exact ⟨rfl, rfl, rfl, rfl⟩
  | cons kv rest ih =>
    simp only [List.foldl_cons]
    have h1 := applyUpdate_keeps_identity u kv
    have h2 := ih (applyUpdate u kv)
    exact ⟨h2.1.trans h1.1, h2.2.1.trans h1.2.1,
      h2.2.2.1.trans h1.2.2.1, h2.2.2.2.trans h1.2.2.2⟩

/-- C9: a profile-update body containing any key outside
{name, phone, address} is rejected with the 400 invalid-updates error
and leaves the user record entirely unchanged, and for every body —
accepted or rejected — the resulting user keeps the original email,
role, id and password hash. -/
theorem updateProfile_allowlist_frame (u : User)
    (body : List (String × String)) :
    ((∃ kv ∈ body, allowedUpdates.contains kv.1 = false) →
      updateProfile u body = (.error 400 "Invalid updates", u)) ∧
    ((updateProfile u body).2.email = u.email ∧
     (updateProfile u body).2.role = u.role ∧
     (updateProfile u body).2.id = u.id ∧
     (updateProfile u body).2.passwordHash = u.passwordHash) := by
  constructor
  · intro ⟨kv, hkv, hbad⟩
    unfold updateProfile
    rw [if_neg]
    intro hall
    rw [List.all_eq_true] at hall
    have htrue := hall kv hkv
    rw [htrue] at hbad
    simp at hbad
  · unfold updateProfile
    split
    · exact foldl_applyUpdate_keeps_identity body u
    · exact ⟨rfl, rfl, rfl, rfl⟩

/-- C9 witness: a body writing the role field is rejected and changes
nothing, and a body writing the name keeps email and role intact. -/
theorem updateProfile_allowlist_frame_witness :
    updateProfile exUser [("role", "admin")]
      = (.error 400 "Invalid updates", exUser) ∧
    (updateProfile exUser [("name", "A2")]).2.email = exUser.email ∧
    (updateProfile exUser [("name", "A2")]).2.role = exUser.role := by
  have hbad := updateProfile_allowlist_frame exUser [("role", "admin")]
  have hok := updateProfile_allowlist_frame exUser [("name", "A2")]
  exact ⟨hbad.1 ⟨("role", "admin"), by simp, by decide⟩,
    hok.2.1, hok.2.2.1⟩

/-- C10: the order list endpoint returns exactly the requester's own
orders, and the single-order endpoint answers not-found for an
existing order owned by someone else — the ownership filter applies to
every principal, admins included. -/
theorem order_reads_owner_scoped (principal : User)
    (orders : List Order) (oid : Nat) (o : Order) :
    (∀ q, q ∈ listOrders principal orders ↔
      q ∈ orders ∧ q.user = principal.id) ∧
    (o ∈ orders → o.id = oid → o.user ≠ principal.id →
      (∀ o2, o2 ∈ orders → o2.id = oid → o2 = o) →
      getOrder principal orders oid = .notFound) := by
  constructor
  · intro q
    unfold listOrders
    rw [List.mem_filter]
    simp
  · intro ho hid howner huniq
    unfold getOrder
    have hnone : orders.find?
        (fun o2 => o2.id == oid && o2.user == principal.id) = none := by
      rw [List.find?_eq_none]
      intro x hx
      by_cases hxid : x.id = oid
      · have hxo : x = o := huniq x hx hxid
        subst hxo
        simp [howner]
      · simp [hxid]
    rw [hnone]

/-- C10 witness: an admin principal sees an empty own-orders list over
a store holding only another user's order, and reading that order by
id yields not-found despite the admin role. -/
theorem order_reads_owner_scoped_witness :
    (exStoredOrder ∈ listOrders exAdmin [exStoredOrder] ↔
      exStoredOrder ∈ [exStoredOrder] ∧ exStoredOrder.user = exAdmin.id) ∧
    getOrder exAdmin [exStoredOrder] 3 = .notFound := by
  have h := order_reads_owner_scoped exAdmin [exStoredOrder] 3
    exStoredOrder
  refine ⟨h.1 exStoredOrder, ?_⟩
  exact h.2 (by simp) rfl (by decide)
    (fun o2 h2 _ => by simpa using h2)

/-- C8: over any cart satisfying the quantities-at-least-one
invariant, every modelled cart operation preserves it; updateItem with
qty ≤ 0 — in particular qty = 0 — leaves the product absent from the
cart rather than stored at quantity zero, and addItem only ever
returns carts satisfying the invariant. -/
theorem cart_ops_preserve_quantity_invariant (c : SpecCart) (p : Nat)
    (qty : Int) (hinv : cartInv c = true) :
    cartInv (updateItem c p qty) = true ∧
    (qty ≤ 0 → (updateItem c p qty).lookup p = none) ∧
    (updateItem c p 0).lookup p = none ∧
    (∀ c2, addItem c p qty = .ok c2 → cartInv c2 = true) ∧
    cartInv (removeItem c p) = true ∧
    cartInv (clearCart c) = true := by
  have hall := (List.all_eq_true).mp hinv
  have hlook : ∀ q : Int, q ≤ 0 →
      (updateItem c p q).lookup p = none := by
    intro q hq
    unfold updateItem
    rw [if_pos hq]
    unfold SpecCart.lookup
    have hfind : (c.entries.filter
        (fun e => !(e.1 == p))).find? (fun e => e.1 == p) = none := by
      rw [List.find?_eq_none]
      intro x hx
      have hmem := List.of_mem_filter hx
      simp at hmem ⊢
      exact hmem
    rw [hfind]
    rfl
  refine ⟨?_, hlook qty, hlook 0 le_rfl, ?_, ?_, rfl⟩
  · unfold updateItem
    split
    · unfold cartInv
      rw [List.all_eq_true]
      intro e he
      exact hall e (List.mem_of_mem_filter he)
    · rename_i hq
      unfold cartInv
      rw [List.all_eq_true]
      intro e he
      rw [List.mem_map] at he
      obtain ⟨e0, he0, heq⟩ := he
      by_cases hp : (e0.1 == p) = true
      · rw [if_pos hp] at heq
        have : (1 : Int) ≤ qty := by omega
        rw [← heq]
        simpa using this
      · rw [if_neg (by simp_all)] at heq
        rw [← heq]
        exact hall e0 he0
  · intro c2 hok
    unfold addItem at hok
    split at hok
    · simp at hok
    · rename_i hqty
      have hq1 : (1 : Int) ≤ qty := by omega
      split at hok
      · rw [Except.ok.injEq] at hok
        subst hok
        unfold cartInv
        rw [List.all_eq_true]
        intro e he
        rw [List.mem_map] at he
        obtain ⟨e0, he0, heq⟩ := he
        by_cases hp : (e0.1 == p) = true
        · rw [if_pos hp] at heq
          have h0 := hall e0 he0
          simp only [decide_eq_true_eq] at h0
          rw [← heq]
          simp only [decide_eq_true_eq]
          omega
        · rw [if_neg (by simp_all)] at heq
          rw [← heq]
          exact hall e0 he0
      · rw [Except.ok.injEq] at hok
        subst hok
        unfold cartInv
        rw [List.all_eq_true]
        intro e he
        rw [List.mem_append] at he
        rcases he with h | h
        · exact hall e h
        · simp at h
          rw [h]
          simpa using hq1
  · unfold removeItem cartInv
    rw [List.all_eq_true]
    intro e he
    exact hall e (List.mem_of_mem_filter he)

/-- C8 witness: on the concrete cart {5 ↦ 2}, updating product 5 to
quantity 0 removes the entry, the invariant survives, and adding two
more of product 5 keeps the invariant. -/
theorem cart_ops_preserve_quantity_invariant_witness :
    cartInv { entries := [(5, 2)] } = true ∧
    (updateItem { entries := [(5, 2)] } 5 0).lookup 5 = none ∧
    cartInv (updateItem { entries := [(5, 2)] } 5 0) = true ∧
    cartInv (removeItem { entries := [(5, 2)] } 5) = true := by
  have h := cart_ops_preserve_quantity_invariant
    { entries := [(5, 2)] } 5 0 (by decide)
  exact ⟨by decide, h.2.2.1, h.1, h.2.2.2.2.1⟩

end Shop
